import Mathlib

/-!
Shallow embedding of the Stationery Inventory server (server.js).

The server is an Express application over a SQLite database with two
tables, products and sales.  We embed the database as lists of records,
JS numbers as integers (every claim is an exact ring identity or an
order fact, stated and refuted at integer-valued inputs, so the scalar
type does not matter for them), calendar dates as integers (day numbers, so
that the SQLite comparison sale_date >= date(now, -7 days) becomes an
integer comparison), and request bodies as records of Option fields so
that the JS truthiness checks on req.body can be stated faithfully
(a missing field is none; the number 0 and the empty string are falsy).

Storage faults inside the two multi-statement transactions (POST
/api/sales and DELETE /api/clear-all) are modelled by explicit boolean
fault flags, one per fallible statement; the ROLLBACK performed by the
handler on such a fault is modelled by returning the pre-transaction
state unchanged, which is the semantics of a SQLite transaction
rollback.  The per-query error fallback of GET /api/analytics is
modelled the same way, one flag per query.
-/

/-- A row of the products table. updated_at is an abstract timestamp tick. -/
structure Product where
  id : Nat
  name : String
  purchase_price : ℤ
  selling_price : ℤ
  stock : ℤ
  min_stock : ℤ
  total_sold : ℤ
  updated_at : Nat
  deriving DecidableEq

/-- A row of the sales table. -/
structure Sale where
  id : Nat
  product_id : Nat
  product_name : String
  quantity : ℤ
  sale_price : ℤ
  purchase_price : ℤ
  total : ℤ
  profit : ℤ
  sale_date : Int
  customer_name : String
  deriving DecidableEq

/-- The persistent state: the two tables plus their AUTOINCREMENT sequences. -/
structure DB where
  products : List Product
  sales : List Sale
  nextProductId : Nat
  nextSaleId : Nat
  deriving DecidableEq

/-- The error outcomes an API handler can produce, keyed by the HTTP
responses of server.js: 400 on missing or negative input (validation),
404 (not found), 400 with the available stock in the message
(insufficient stock), and 500 on an underlying SQLite error (storage). -/
inductive ApiError where
  | validation (msg : String)
  | notFound (msg : String)
  | insufficientStock (available : ℤ)
  | storage (msg : String)
  deriving DecidableEq

/-- Whether an Except result is a success. -/
def isOkE {α : Type} : Except ApiError α → Bool
  | .ok _ => true
  | .error _ => false

/-- Whether an Except result is a validation error. -/
def isValidationE {α : Type} : Except ApiError α → Bool
  | .error (.validation _) => true
  | _ => false

/-- Lookup of a product row by id, as in SELECT * FROM products WHERE id = ?. -/
def getProduct (db : DB) (pid : Nat) : Option Product :=
  db.products.find? (fun p => p.id == pid)

/-- Body of POST /api/products.  Every field may be absent. -/
structure AddReq where
  name : Option String
  purchase_price : Option ℤ
  selling_price : Option ℤ
  stock : Option ℤ
  min_stock : Option ℤ
  deriving DecidableEq

/-- The validation of POST /api/products: the handler rejects when
(bang)name is truthy-false, or purchase_price, selling_price or stock is
null or undefined, and then when any of the three numbers is negative. -/
def addInvalid (req : AddReq) : Bool :=
  match req.name, req.purchase_price, req.selling_price, req.stock with
  | some n, some pp, some sp, some st =>
      n == "" || decide (pp < 0) || decide (sp < 0) || decide (st < 0)
  | _, _, _, _ => true

/-- The min_stock value inserted by POST /api/products: the JS
expression min_stock or-else 5, which falls back to 5 whenever the
supplied min_stock is falsy (absent or equal to 0). -/
def effMinStock (m : Option ℤ) : ℤ :=
  match m with
  | none => 5
  | some v => if v = 0 then 5 else v

/-- POST /api/products: validate, INSERT with DB defaults total_sold = 0
and generated id, and return the created row.  On a validation failure
nothing is written. -/
def addProduct (req : AddReq) (now : Nat) (db : DB) : Except ApiError Product × DB :=
  match req.name, req.purchase_price, req.selling_price, req.stock with
  | some n, some pp, some sp, some st =>
      if n = "" then (.error (.validation "Missing required fields"), db)
      else if pp < 0 ∨ sp < 0 ∨ st < 0 then
        (.error (.validation "Values cannot be negative"), db)
      else
        let p : Product :=
          { id := db.nextProductId, name := n, purchase_price := pp,
            selling_price := sp, stock := st,
            min_stock := effMinStock req.min_stock,
            total_sold := 0, updated_at := now }
        (.ok p, { db with products := p :: db.products,
                          nextProductId := db.nextProductId + 1 })
  | _, _, _, _ => (.error (.validation "Missing required fields"), db)

/-- PUT /api/products/:id/stock: overwrite stock and total_sold and
refresh updated_at for the row with this id; 404 when no row changes.
The handler performs no validation of the incoming values. -/
def updateStock (pid : Nat) (stock total_sold : ℤ) (now : Nat) (db : DB) :
    Except ApiError Unit × DB :=
  if db.products.any (fun p => p.id == pid) then
    (.ok (), { db with products := db.products.map (fun p =>
        if p.id == pid then
          { p with stock := stock, total_sold := total_sold, updated_at := now }
        else p) })
  else (.error (.notFound "Product not found"), db)

/-- DELETE /api/products/:id: delete the row; the ON DELETE CASCADE
foreign key removes the sales referencing it; 404 when absent. -/
def deleteProduct (pid : Nat) (db : DB) : Except ApiError Unit × DB :=
  if db.products.any (fun p => p.id == pid) then
    (.ok (), { db with products := db.products.filter (fun p => p.id != pid),
                       sales := db.sales.filter (fun s => s.product_id != pid) })
  else (.error (.notFound "Product not found"), db)

/-- Body of POST /api/sales. -/
structure SaleReq where
  product_id : Option Nat
  quantity : Option ℤ
  sale_date : Option Int
  customer_name : Option String
  deriving DecidableEq

/-- Fault flags for the two fallible writes inside the sale transaction. -/
structure SaleFaults where
  insertFails : Bool
  updateFails : Bool
  deriving DecidableEq

/-- No storage fault during the sale transaction. -/
def saleNoFaults : SaleFaults := ⟨false, false⟩

/-- The customer_name stored by POST /api/sales: the JS expression
customer_name or-else the walk-in placeholder. -/
def effCustomer (c : Option String) : String :=
  match c with
  | none => "Walk-in Customer"
  | some s => if s = "" then "Walk-in Customer" else s

/-- POST /api/sales: truthiness validation of product_id, quantity and
sale_date; product lookup (404 when absent); stock check (400 carrying
the available stock); then, inside BEGIN TRANSACTION, the sale INSERT
and the product UPDATE, either of which may hit a storage fault, upon
which the handler issues ROLLBACK and the pre-transaction state is
restored; otherwise COMMIT makes both writes visible. -/
def recordSale (req : SaleReq) (f : SaleFaults) (now : Nat) (db : DB) :
    Except ApiError Sale × DB :=
  match req.product_id, req.quantity, req.sale_date with
  | some pid, some q, some d =>
      if pid = 0 ∨ q = 0 then (.error (.validation "Missing required fields"), db)
      else
        match getProduct db pid with
        | none => (.error (.notFound "Product not found"), db)
        | some product =>
            if product.stock < q then
              (.error (.insufficientStock product.stock), db)
            else
              let total := q * product.selling_price
              let profit := q * (product.selling_price - product.purchase_price)
              let newStock := product.stock - q
              let newTotalSold := product.total_sold + q
              if f.insertFails then (.error (.storage "insert failed"), db)
              else
                let sale : Sale :=
                  { id := db.nextSaleId, product_id := pid,
                    product_name := product.name, quantity := q,
                    sale_price := product.selling_price,
                    purchase_price := product.purchase_price,
                    total := total, profit := profit, sale_date := d,
                    customer_name := effCustomer req.customer_name }
                if f.updateFails then (.error (.storage "update failed"), db)
                else
                  (.ok sale,
                    { db with
                      sales := sale :: db.sales,
                      nextSaleId := db.nextSaleId + 1,
                      products := db.products.map (fun p =>
                        if p.id == pid then
                          { p with stock := newStock, total_sold := newTotalSold,
                                   updated_at := now }
                        else p) })
  | _, _, _ => (.error (.validation "Missing required fields"), db)

/-- SELECT COUNT(star) FROM products. -/
def totalProductsQ (db : DB) : Nat := db.products.length

/-- SELECT COALESCE(SUM(total), 0) FROM sales. -/
def totalSalesQ (db : DB) : ℤ :=
  db.sales.foldr (fun s acc => s.total + acc) 0

/-- SELECT COALESCE(SUM(profit), 0) FROM sales. -/
def totalProfitQ (db : DB) : ℤ :=
  db.sales.foldr (fun s acc => s.profit + acc) 0

/-- SELECT COUNT(star) FROM products WHERE stock <= min_stock. -/
def lowStockQ (db : DB) : Nat :=
  (db.products.filter (fun p => decide (p.stock ≤ p.min_stock))).length

/-- SELECT COALESCE(SUM(total), 0) FROM sales WHERE sale_date = date(now). -/
def todaySalesQ (db : DB) (today : Int) : ℤ :=
  ((db.sales.filter (fun s => s.sale_date == today)).foldr
    (fun s acc => s.total + acc) 0)

/-- SELECT COALESCE(SUM(profit), 0) FROM sales WHERE sale_date = date(now). -/
def todayProfitQ (db : DB) (today : Int) : ℤ :=
  ((db.sales.filter (fun s => s.sale_date == today)).foldr
    (fun s acc => s.profit + acc) 0)

/-- SELECT COALESCE(SUM(total), 0) FROM sales WHERE
sale_date >= date(now, -7 days): a lower bound only. -/
def weekSalesQ (db : DB) (today : Int) : ℤ :=
  ((db.sales.filter (fun s => decide (today - 7 ≤ s.sale_date))).foldr
    (fun s acc => s.total + acc) 0)

/-- SELECT COALESCE(SUM(total), 0) FROM sales WHERE
sale_date >= date(now, -30 days): a lower bound only. -/
def monthSalesQ (db : DB) (today : Int) : ℤ :=
  ((db.sales.filter (fun s => decide (today - 30 ≤ s.sale_date))).foldr
    (fun s acc => s.total + acc) 0)

/-- The sum of Sale total over a window of exactly 7 calendar dates
ending at today, following the words of the claim for weekSales
(trailing 7 days inclusive of today). -/
def weekSalesClaimWindow (db : DB) (today : Int) : ℤ :=
  ((db.sales.filter (fun s =>
      decide (today - 6 ≤ s.sale_date) && decide (s.sale_date ≤ today))).foldr
    (fun s acc => s.total + acc) 0)

/-- One fault flag per analytics query. -/
structure AnalyticsFaults where
  totalProducts : Bool
  totalSales : Bool
  totalProfit : Bool
  lowStockItems : Bool
  todaySales : Bool
  todayProfit : Bool
  weekSales : Bool
  monthSales : Bool
  deriving DecidableEq

/-- No analytics query faults. -/
def anNoFaults : AnalyticsFaults := ⟨false, false, false, false, false, false, false, false⟩

/-- The response body of GET /api/analytics. -/
structure Analytics where
  totalProducts : ℤ
  totalSales : ℤ
  totalProfit : ℤ
  lowStockItems : ℤ
  todaySales : ℤ
  todayProfit : ℤ
  weekSales : ℤ
  monthSales : ℤ
  deriving DecidableEq

/-- GET /api/analytics: the handler runs the eight queries independently;
when a query errors, it stores 0 for that key and continues, and it
always responds with the assembled object (it never returns an error
response). -/
def getAnalytics (f : AnalyticsFaults) (today : Int) (db : DB) : Analytics :=
  { totalProducts := if f.totalProducts then 0 else (totalProductsQ db : ℤ),
    totalSales := if f.totalSales then 0 else totalSalesQ db,
    totalProfit := if f.totalProfit then 0 else totalProfitQ db,
    lowStockItems := if f.lowStockItems then 0 else (lowStockQ db : ℤ),
    todaySales := if f.todaySales then 0 else todaySalesQ db today,
    todayProfit := if f.todayProfit then 0 else todayProfitQ db today,
    weekSales := if f.weekSales then 0 else weekSalesQ db today,
    monthSales := if f.monthSales then 0 else monthSalesQ db today }

/-- Fault flags for the three statements of DELETE /api/clear-all. -/
structure ClearFaults where
  salesFails : Bool
  productsFails : Bool
  seqFails : Bool
  deriving DecidableEq

/-- DELETE /api/clear-all: inside BEGIN TRANSACTION, DELETE FROM sales,
DELETE FROM products, then DELETE FROM sqlite_sequence for both tables
(so the next generated ids are 1); a fault at any statement triggers
ROLLBACK, restoring the pre-transaction state; otherwise COMMIT. -/
def clearAll (f : ClearFaults) (db : DB) : Except ApiError Unit × DB :=
  if f.salesFails then (.error (.storage "clear sales failed"), db)
  else if f.productsFails then (.error (.storage "clear products failed"), db)
  else if f.seqFails then (.error (.storage "reset sequences failed"), db)
  else (.ok (), { products := [], sales := [], nextProductId := 1, nextSaleId := 1 })

/-- Every product row has non-negative stock. -/
def nonNegStocks (db : DB) : Prop := ∀ p ∈ db.products, 0 ≤ p.stock

/-- A sample product used by concrete witnesses: the Pen of the spec
example scenario. -/
def pen : Product :=
  { id := 1, name := "Pen", purchase_price := 3, selling_price := 5,
    stock := 10, min_stock := 5, total_sold := 0, updated_at := 0 }

/-- A sample one-product database. -/
def penDb : DB := { products := [pen], sales := [], nextProductId := 2, nextSaleId := 1 }

/-- A sample sale row dated day 3 with total 10 and profit 4. -/
def oldSale : Sale :=
  { id := 1, product_id := 1, product_name := "Pen", quantity := 2,
    sale_price := 5, purchase_price := 3, total := 10, profit := 4,
    sale_date := 3, customer_name := "Walk-in Customer" }

/-- A sample database holding one product and one sale dated day 3. -/
def penSaleDb : DB :=
  { products := [pen], sales := [oldSale], nextProductId := 2, nextSaleId := 2 }

/-- Finding a row by id after an id-preserving conditional rewrite of the
rows with that id: the result is the rewrite of the row found before. -/
theorem find_map_update (l : List Product) (pid : Nat) (g : Product → Product)
    (hg : ∀ x, (g x).id = x.id) :
    (l.map (fun x => if x.id == pid then g x else x)).find? (fun x => x.id == pid)
      = (l.find? (fun x => x.id == pid)).map g := by
  have hpred : ((fun x => x.id == pid) ∘ fun x => if x.id == pid then g x else x)
      = fun x => x.id == pid := by
    funext x
    by_cases h : x.id = pid <;> simp [h, hg]
  rw [List.find?_map, hpred]
  cases hf : l.find? (fun x => x.id == pid) with
  | none => rfl
  | some a =>
    have ha := List.find?_some hf
    show some (if a.id == pid then g a else a) = some (g a)
    rw [if_pos ha]

/-- Claim C1: when recordSale succeeds on a product p with stock at least
the quantity, the stock of p drops by the quantity, total_sold rises by
the quantity, and the new Sale has total = quantity times selling_price,
profit = quantity times (selling_price minus purchase_price), and
snapshots of the name and both prices of p. -/
theorem recordSale_success_spec (pid : Nat) (q : ℤ) (d : Int) (cn : Option String)
    (now : Nat) (db : DB) (p : Product)
    (hpid : pid ≠ 0) (hq0 : q ≠ 0)
    (hfind : getProduct db pid = some p)
    (hstock : q ≤ p.stock) :
    ∃ sale db2,
      recordSale ⟨some pid, some q, some d, cn⟩ saleNoFaults now db = (.ok sale, db2)
      ∧ sale.total = q * p.selling_price
      ∧ sale.profit = q * (p.selling_price - p.purchase_price)
      ∧ sale.product_name = p.name
      ∧ sale.sale_price = p.selling_price
      ∧ sale.purchase_price = p.purchase_price
      ∧ sale ∈ db2.sales
      ∧ getProduct db2 pid
          = some { p with stock := p.stock - q, total_sold := p.total_sold + q,
                          updated_at := now } := by
  have hcond : ¬ (pid = 0 ∨ q = 0) := by
    push_neg
    exact ⟨hpid, hq0⟩
  have hlt : ¬ p.stock < q := not_lt.mpr hstock
  have heq : recordSale ⟨some pid, some q, some d, cn⟩ saleNoFaults now db
      = (.ok { id := db.nextSaleId, product_id := pid, product_name := p.name,
               quantity := q, sale_price := p.selling_price,
               purchase_price := p.purchase_price, total := q * p.selling_price,
               profit := q * (p.selling_price - p.purchase_price), sale_date := d,
               customer_name := effCustomer cn },
         { db with
           sales := { id := db.nextSaleId, product_id := pid, product_name := p.name,
                      quantity := q, sale_price := p.selling_price,
                      purchase_price := p.purchase_price, total := q * p.selling_price,
                      profit := q * (p.selling_price - p.purchase_price), sale_date := d,
                      customer_name := effCustomer cn } :: db.sales,
           nextSaleId := db.nextSaleId + 1,
           products := db.products.map (fun x =>
             if x.id == pid then
               { x with stock := p.stock - q, total_sold := p.total_sold + q,
                        updated_at := now }
             else x) }) := by
    simp only [recordSale, saleNoFaults, hfind, if_neg hcond, if_neg hlt,
      Bool.false_eq_true, if_false]
  refine ⟨_, _, heq, rfl, rfl, rfl, rfl, rfl, List.mem_cons_self _ _, ?_⟩
  show (db.products.map (fun x =>
      if x.id == pid then
        { x with stock := p.stock - q, total_sold := p.total_sold + q,
                 updated_at := now }
      else x)).find? (fun x => x.id == pid) = _
  rw [find_map_update db.products pid
    (fun x => { x with stock := p.stock - q, total_sold := p.total_sold + q,
                       updated_at := now })
    (fun x => rfl)]
  have hfind2 : db.products.find? (fun x => x.id == pid) = some p := hfind
  rw [hfind2]
  rfl

/-- Concrete instance of claim C1: selling 3 Pens out of 10. -/
theorem recordSale_success_spec_witness :
    ∃ sale db2,
      recordSale ⟨some 1, some 3, some 10, none⟩ saleNoFaults 7 penDb = (.ok sale, db2)
      ∧ sale.total = 3 * pen.selling_price
      ∧ sale.profit = 3 * (pen.selling_price - pen.purchase_price)
      ∧ sale.product_name = pen.name
      ∧ sale.sale_price = pen.selling_price
      ∧ sale.purchase_price = pen.purchase_price
      ∧ sale ∈ db2.sales
      ∧ getProduct db2 1
          = some { pen with stock := pen.stock - 3, total_sold := pen.total_sold + 3,
                            updated_at := 7 } :=
  recordSale_success_spec 1 3 10 none 7 penDb pen (by decide) (by decide)
    (by decide) (by decide)

/-- Claim C2: when the quantity exceeds the available stock, recordSale
fails with the insufficient-stock error carrying the available stock,
and the whole state, the sale ledger included, is returned unchanged. -/
theorem recordSale_insufficient (pid : Nat) (q : ℤ) (d : Int) (cn : Option String)
    (f : SaleFaults) (now : Nat) (db : DB) (p : Product)
    (hpid : pid ≠ 0) (hq0 : q ≠ 0)
    (hfind : getProduct db pid = some p)
    (hstock : p.stock < q) :
    recordSale ⟨some pid, some q, some d, cn⟩ f now db
      = (.error (.insufficientStock p.stock), db) := by
  have hcond : ¬ (pid = 0 ∨ q = 0) := by
    push_neg
    exact ⟨hpid, hq0⟩
  simp only [recordSale, hfind, if_neg hcond, if_pos hstock]

/-- Concrete instance of claim C2: asking for 20 Pens with 10 in stock. -/
theorem recordSale_insufficient_witness :
    recordSale ⟨some 1, some 20, some 11, none⟩ saleNoFaults 9 penDb
      = (.error (.insufficientStock pen.stock), penDb) :=
  recordSale_insufficient 1 20 11 none saleNoFaults 9 penDb pen (by decide)
    (by decide) (by decide) (by decide)

/-- Claim C3 counterexample: the handler only checks JS truthiness of the
fields, so the non-positive quantity minus one passes validation, the
sale is recorded, and the stock of the product rises from 10 to 11. -/
theorem recordSale_negative_quantity_accepted :
    isOkE (recordSale ⟨some 1, some (-1), some 10, none⟩ saleNoFaults 7 penDb).1 = true
    ∧ (getProduct (recordSale ⟨some 1, some (-1), some 10, none⟩ saleNoFaults 7 penDb).2
        1).map Product.stock = some 11 := by
  constructor
  · rfl
  · rfl

/-- Claim C3 as amended: recordSale rejects with a validation error,
before any storage access and leaving the state unchanged, exactly the
requests in which product_id, quantity or sale_date is falsy (absent, or
the number 0); truthy non-positive or non-integer quantities are not
rejected. -/
theorem recordSale_validation (opid : Option Nat) (oq : Option ℤ) (od : Option Int)
    (ocn : Option String) (f : SaleFaults) (now : Nat) (db : DB)
    (h : opid = none ∨ opid = some 0 ∨ oq = none ∨ oq = some 0 ∨ od = none) :
    recordSale ⟨opid, oq, od, ocn⟩ f now db
      = (.error (.validation "Missing required fields"), db) := by
  rcases h with h | h | h | h | h
  · subst h; cases oq <;> cases od <;> simp [recordSale]
  · subst h; cases oq <;> cases od <;> simp [recordSale]
  · subst h; cases opid <;> cases od <;> simp [recordSale]
  · subst h; cases opid <;> cases od <;> simp [recordSale]
  · subst h; cases opid <;> cases oq <;> simp [recordSale]

/-- Concrete instance of the amended claim C3: a request without a
quantity is rejected with a validation error and changes nothing. -/
theorem recordSale_validation_witness :
    recordSale ⟨some 1, none, some 10, none⟩ saleNoFaults 0 penDb
      = (.error (.validation "Missing required fields"), penDb) :=
  recordSale_validation (some 1) none (some 10) none saleNoFaults 0 penDb
    (Or.inr (Or.inr (Or.inl rfl)))

/-- Claim C4: recordSale is atomic. Whenever a storage fault hits the
sale INSERT or the product UPDATE inside the transaction, the call
returns an error and the resulting state is exactly the state before the
call: no partial effect of the transaction is visible. -/
theorem recordSale_rollback (req : SaleReq) (f : SaleFaults) (now : Nat) (db : DB)
    (h : f.insertFails = true ∨ f.updateFails = true) :
    (recordSale req f now db).2 = db ∧ isOkE (recordSale req f now db).1 = false := by
  obtain ⟨opid, oq, od, ocn⟩ := req
  cases opid with
  | none => cases oq <;> cases od <;> simp [recordSale, isOkE]
  | some pid =>
    cases oq with
    | none => cases od <;> simp [recordSale, isOkE]
    | some q =>
      cases od with
      | none => simp [recordSale, isOkE]
      | some d =>
        simp only [recordSale]
        by_cases hc : pid = 0 ∨ q = 0
        · simp [hc, isOkE]
        · rw [if_neg hc]
          cases hfp : getProduct db pid with
          | none => simp [isOkE]
          | some p =>
            by_cases hs : p.stock < q
            · simp [hs, isOkE]
            · rcases h with h | h
              · simp [hs, h, isOkE]
              · by_cases hi : f.insertFails <;> simp [hs, hi, h, isOkE]

/-- Concrete instance of claim C4: a fault at the product UPDATE rolls
back the already inserted sale, leaving the state untouched. -/
theorem recordSale_rollback_witness :
    (recordSale ⟨some 1, some 3, some 10, none⟩ ⟨false, true⟩ 0 penDb).2 = penDb
    ∧ isOkE (recordSale ⟨some 1, some 3, some 10, none⟩ ⟨false, true⟩ 0 penDb).1
        = false :=
  recordSale_rollback ⟨some 1, some 3, some 10, none⟩ ⟨false, true⟩ 0 penDb
    (Or.inr rfl)

/-- Claim C5 counterexample: the stock-update handler performs no
validation at all, so updating the Pen with stock minus three succeeds
and persists a negative stock. -/
theorem updateStock_negative_persisted :
    isOkE (updateStock 1 (-3) 0 7 penDb).1 = true
    ∧ (getProduct (updateStock 1 (-3) 0 7 penDb).2 1).map Product.stock
        = some (-3) :=
  ⟨rfl, rfl⟩

/-- Claim C5 as amended: adding a product (which rejects negative stock),
recording a sale (which checks stock against the quantity), and deleting
a product all preserve non-negativity of every stock, but updateStock
validates nothing and can persist a negative stock. -/
theorem stock_nonneg_preserved (now : Nat) (db : DB) (h : nonNegStocks db) :
    (∀ r : AddReq, nonNegStocks (addProduct r now db).2)
    ∧ (∀ (r : SaleReq) (f : SaleFaults), nonNegStocks (recordSale r f now db).2)
    ∧ (∀ pid : Nat, nonNegStocks (deleteProduct pid db).2) := by
  refine ⟨?_, ?_, ?_⟩
  · intro r
    obtain ⟨onm, opp, osp, ost, oms⟩ := r
    cases onm <;> cases opp <;> cases osp <;> cases ost <;> try exact h
    rename_i n pp sp st
    by_cases h1 : n = ""
    · simp only [addProduct, if_pos h1]
      exact h
    · by_cases h2 : pp < 0 ∨ sp < 0 ∨ st < 0
      · simp only [addProduct, if_neg h1, if_pos h2]
        exact h
      · simp only [addProduct, if_neg h1, if_neg h2]
        intro x hx
        rcases List.mem_cons.mp hx with rfl | hx
        · push_neg at h2
          exact h2.2.2
        · exact h x hx
  · intro r f
    obtain ⟨opid, oq, od, ocn⟩ := r
    cases opid <;> cases oq <;> cases od <;> try exact h
    rename_i pid q d
    simp only [recordSale]
    by_cases hc : pid = 0 ∨ q = 0
    · rw [if_pos hc]
      exact h
    · rw [if_neg hc]
      cases hfp : getProduct db pid with
      | none => exact h
      | some p =>
        by_cases hs : p.stock < q
        · simp only [if_pos hs]
          exact h
        · simp only [if_neg hs]
          by_cases hi : f.insertFails = true
          · simp only [if_pos hi]
            exact h
          · simp only [if_neg hi]
            by_cases hu : f.updateFails = true
            · simp only [if_pos hu]
              exact h
            · simp only [if_neg hu]
              intro x hx
              rcases List.mem_map.mp hx with ⟨y, hy, rfl⟩
              by_cases hid : y.id = pid
              · simp only [hid, beq_self_eq_true, if_pos]
                have hq : q ≤ p.stock := not_lt.mp hs
                simpa using sub_nonneg.mpr hq
              · have hb : (y.id == pid) = false := by simpa using hid
                rw [hb]
                simp only [Bool.false_eq_true, if_false]
                exact h y hy
  · intro pid
    simp only [deleteProduct]
    by_cases hex : db.products.any (fun p => p.id == pid)
    · simp only [if_pos hex]
      intro x hx
      exact h x (List.mem_of_mem_filter hx)
    · simp only [if_neg hex]
      exact h

/-- Concrete instance of the amended claim C5 on the one-Pen database. -/
theorem stock_nonneg_preserved_witness :
    (∀ r : AddReq, nonNegStocks (addProduct r 3 penDb).2)
    ∧ (∀ (r : SaleReq) (f : SaleFaults), nonNegStocks (recordSale r f 3 penDb).2)
    ∧ (∀ pid : Nat, nonNegStocks (deleteProduct pid penDb).2) :=
  stock_nonneg_preserved 3 penDb (by unfold nonNegStocks; decide)

/-- Claim C6: addProduct rejects with a validation error, writing
nothing, exactly when the name is empty or missing or one of
purchase_price, selling_price, stock is missing or negative; otherwise
it succeeds and the created product carries the input stock, total_sold
zero, the generated identifier, and min_stock 5 when min_stock was
omitted. -/
theorem addProduct_spec (req : AddReq) (now : Nat) (db : DB) :
    (addInvalid req = true →
      isValidationE (addProduct req now db).1 = true ∧ (addProduct req now db).2 = db)
    ∧ (addInvalid req = false →
      ∃ p, (addProduct req now db).1 = .ok p
        ∧ req.stock = some p.stock
        ∧ p.total_sold = 0
        ∧ p.id = db.nextProductId
        ∧ (req.min_stock = none → p.min_stock = 5)
        ∧ (addProduct req now db).2
            = { db with products := p :: db.products,
                        nextProductId := db.nextProductId + 1 }) := by
  obtain ⟨onm, opp, osp, ost, oms⟩ := req
  cases onm <;> cases opp <;> cases osp <;> cases ost <;>
    try exact ⟨fun _ => ⟨rfl, rfl⟩, fun hf => nomatch hf⟩
  rename_i n pp sp st
  constructor
  · intro hinv
    by_cases h1 : n = ""
    · simp [addProduct, if_pos h1, isValidationE]
    · have hneg : pp < 0 ∨ sp < 0 ∨ st < 0 := by
        simp only [addInvalid, Bool.or_eq_true, beq_iff_eq, decide_eq_true_eq] at hinv
        rcases hinv with ((hh | hh) | hh) | hh
        · exact absurd hh h1
        · exact Or.inl hh
        · exact Or.inr (Or.inl hh)
        · exact Or.inr (Or.inr hh)
      simp [addProduct, if_neg h1, if_pos hneg, isValidationE]
  · intro hval
    have h1 : ¬ n = "" := by
      intro hh
      simp [addInvalid, hh] at hval
    have hneg : ¬ (pp < 0 ∨ sp < 0 ∨ st < 0) := by
      intro hh
      rcases hh with hh | hh | hh <;> simp [addInvalid, hh] at hval
    refine ⟨{ id := db.nextProductId, name := n, purchase_price := pp,
              selling_price := sp, stock := st, min_stock := effMinStock oms,
              total_sold := 0, updated_at := now }, ?_, rfl, rfl, rfl, ?_, ?_⟩
    · simp only [addProduct, if_neg h1, if_neg hneg]
    · intro hm
      have hm2 : oms = none := hm
      simp [effMinStock, hm2]
    · simp only [addProduct, if_neg h1, if_neg hneg]

/-- Concrete instance of claim C6: a valid add call on the Pen database. -/
theorem addProduct_spec_witness :
    ∃ p, (addProduct ⟨some "Notebook", some 4, some 9, some 20, none⟩ 2 penDb).1 = .ok p
      ∧ (⟨some "Notebook", some 4, some 9, some 20, none⟩ : AddReq).stock = some p.stock
      ∧ p.total_sold = 0
      ∧ p.id = penDb.nextProductId
      ∧ ((⟨some "Notebook", some 4, some 9, some 20, none⟩ : AddReq).min_stock = none
          → p.min_stock = 5)
      ∧ (addProduct ⟨some "Notebook", some 4, some 9, some 20, none⟩ 2 penDb).2
          = { penDb with products := p :: penDb.products,
                         nextProductId := penDb.nextProductId + 1 } :=
  (addProduct_spec ⟨some "Notebook", some 4, some 9, some 20, none⟩ 2 penDb).2 (by decide)

/-- Claim C10: a valid add call that explicitly passes min_stock = 0
still creates the product with min_stock = 5, because the handler
applies the default through a JS falsiness fallback. -/
theorem addProduct_minStockZero (n : String) (pp sp st : ℤ) (now : Nat) (db : DB)
    (hn : n ≠ "") (hpp : 0 ≤ pp) (hsp : 0 ≤ sp) (hst : 0 ≤ st) :
    ∃ p, (addProduct ⟨some n, some pp, some sp, some st, some 0⟩ now db).1 = .ok p
      ∧ p.min_stock = 5 := by
  have hneg : ¬ (pp < 0 ∨ sp < 0 ∨ st < 0) := by
    push_neg
    exact ⟨hpp, hsp, hst⟩
  refine ⟨{ id := db.nextProductId, name := n, purchase_price := pp,
            selling_price := sp, stock := st, min_stock := effMinStock (some 0),
            total_sold := 0, updated_at := now }, ?_, ?_⟩
  · simp only [addProduct, if_neg hn, if_neg hneg]
  · rfl

/-- Concrete instance of claim C10: min_stock passed as 0 is stored as 5. -/
theorem addProduct_minStockZero_witness :
    ∃ p, (addProduct ⟨some "Eraser", some 1, some 2, some 3, some 0⟩ 4 penDb).1 = .ok p
      ∧ p.min_stock = 5 :=
  addProduct_minStockZero "Eraser" 1 2 3 4 penDb (by decide) (by decide) (by decide)
    (by decide)

/-- Claim C7 counterexample: with one product and one sale of total 10
on day 3, a storage fault in the totalSales query alone produces a
successful analytics response in which totalSales is silently reported
as 0 (the true sum is 10) while the other metrics are reported normally;
the aggregate request does not fail. -/
theorem analytics_fault_substitutes_zero :
    (getAnalytics ⟨false, true, false, false, false, false, false, false⟩ 10 penSaleDb).totalSales = 0
    ∧ totalSalesQ penSaleDb = 10
    ∧ (getAnalytics ⟨false, true, false, false, false, false, false, false⟩ 10 penSaleDb).totalProducts = 1
    ∧ (getAnalytics ⟨false, true, false, false, false, false, false, false⟩ 10 penSaleDb).monthSales = 10 :=
  ⟨rfl, rfl, rfl, rfl⟩

/-- Claim C7 as amended: the analytics aggregate always produces a
response; a storage fault in one metric query is absorbed by storing 0
for that metric, and every metric is unaffected by the fault flags of
the other metrics, each being 0 under its own fault and its clean query
value otherwise. -/
theorem analytics_fault_isolation (f : AnalyticsFaults) (today : Int) (db : DB) :
    ((getAnalytics f today db).totalProducts
        = if f.totalProducts then 0 else (totalProductsQ db : ℤ))
    ∧ ((getAnalytics f today db).totalSales
        = if f.totalSales then 0 else totalSalesQ db)
    ∧ ((getAnalytics f today db).totalProfit
        = if f.totalProfit then 0 else totalProfitQ db)
    ∧ ((getAnalytics f today db).lowStockItems
        = if f.lowStockItems then 0 else (lowStockQ db : ℤ))
    ∧ ((getAnalytics f today db).todaySales
        = if f.todaySales then 0 else todaySalesQ db today)
    ∧ ((getAnalytics f today db).todayProfit
        = if f.todayProfit then 0 else todayProfitQ db today)
    ∧ ((getAnalytics f today db).weekSales
        = if f.weekSales then 0 else weekSalesQ db today)
    ∧ ((getAnalytics f today db).monthSales
        = if f.monthSales then 0 else monthSalesQ db today) :=
  ⟨rfl, rfl, rfl, rfl, rfl, rfl, rfl, rfl⟩

/-- Claim C8 counterexample: with today = day 10, a sale dated day 3
lies outside every 7-calendar-date window ending at day 10 (whose
earliest date is day 4), yet the weekSales query includes it, because
the SQL filter keeps every sale_date greater than or equal to today
minus 7 = day 3. -/
theorem weekSales_includes_eighth_day :
    weekSalesQ penSaleDb 10 = 10 ∧ weekSalesClaimWindow penSaleDb 10 = 0 :=
  ⟨rfl, rfl⟩

/-- Claim C8 as amended: weekSales sums Sale total over exactly the sales
with sale_date greater than or equal to today minus 7 days — a window of
8 calendar dates ending at today, with no upper bound, so future-dated
sales are included as well — and monthSales likewise over sale_date
greater than or equal to today minus 30; each is zero when no sale
satisfies its bound. -/
theorem weekMonthSales_spec (db : DB) (today : Int) :
    (weekSalesQ db today
        = (db.sales.filter (fun s => decide (today - 7 ≤ s.sale_date))).foldr
            (fun s acc => s.total + acc) 0)
    ∧ (monthSalesQ db today
        = (db.sales.filter (fun s => decide (today - 30 ≤ s.sale_date))).foldr
            (fun s acc => s.total + acc) 0)
    ∧ ((∀ s ∈ db.sales, s.sale_date < today - 7) → weekSalesQ db today = 0)
    ∧ ((∀ s ∈ db.sales, s.sale_date < today - 30) → monthSalesQ db today = 0) := by
  refine ⟨rfl, rfl, ?_, ?_⟩
  · intro hall
    have hnil : db.sales.filter (fun s => decide (today - 7 ≤ s.sale_date)) = [] := by
      rw [List.filter_eq_nil_iff]
      intro s hs
      simp only [decide_eq_true_eq]
      exact not_le.mpr (hall s hs)
    unfold weekSalesQ
    rw [hnil]
    rfl
  · intro hall
    have hnil : db.sales.filter (fun s => decide (today - 30 ≤ s.sale_date)) = [] := by
      rw [List.filter_eq_nil_iff]
      intro s hs
      simp only [decide_eq_true_eq]
      exact not_le.mpr (hall s hs)
    unfold monthSalesQ
    rw [hnil]
    rfl

/-- Concrete instance of the amended claim C8: with an empty ledger the
windowed sums are zero. -/
theorem weekMonthSales_spec_witness :
    weekSalesQ penDb 100 = 0 :=
  (weekMonthSales_spec penDb 100).2.2.1 (by decide)

/-- Claim C9: the bulk clear runs as one transaction; a fault at any of
its three statements rolls everything back, leaving the state exactly as
it was, and on success both tables are empty and both identifier
sequences restart at 1. -/
theorem clearAll_spec (f : ClearFaults) (db : DB) :
    ((f.salesFails = true ∨ f.productsFails = true ∨ f.seqFails = true) →
      (clearAll f db).2 = db ∧ isOkE (clearAll f db).1 = false)
    ∧ ((f.salesFails = false ∧ f.productsFails = false ∧ f.seqFails = false) →
      clearAll f db = (.ok (),
        { products := [], sales := [], nextProductId := 1, nextSaleId := 1 })) := by
  obtain ⟨a, b, c⟩ := f
  constructor
  · rintro (h | h | h) <;> subst h
    · exact ⟨rfl, rfl⟩
    · cases a <;> exact ⟨rfl, rfl⟩
    · cases a <;> cases b <;> exact ⟨rfl, rfl⟩
  · rintro ⟨h1, h2, h3⟩
    subst h1
    subst h2
    subst h3
    rfl

/-- Concrete instance of claim C9: a fault while deleting the sales rows
leaves the populated database untouched. -/
theorem clearAll_spec_witness :
    (clearAll ⟨true, false, false⟩ penSaleDb).2 = penSaleDb
    ∧ isOkE (clearAll ⟨true, false, false⟩ penSaleDb).1 = false :=
  (clearAll_spec ⟨true, false, false⟩ penSaleDb).1 (Or.inl rfl)
